import Mathlib

/-!
Shallow embedding of the order-creation orchestration of
`microservices/order-service/main.go` (the Order Orchestrator), together
with proofs of the specified properties of `CreateOrder`.

Modelling conventions:
* `float64` amounts are carried opaquely by the service (no arithmetic is
  performed on them), so they are embedded as `Rat`.
* `time.Time` is embedded as an `Int` tick; `time.Now()` is the `now` field
  of the environment.
* The outcome of an outbound HTTP call (`http.Get` / `http.Post`) is either
  a transport error (`err != nil`, carrying the error text that the Go code
  wraps into its message) or a response with a status code.
* The Order Store (`database/sql` against the `orders` table) is a list of
  rows plus the next id the `RETURNING id` clause will assign.  The insert
  of `CreateOrder` can fail (`Env.insertError`); the two `UPDATE` statements
  ignore their result in the source (`s.db.Exec(...)` with the error
  dropped), so they are embedded as writes the store applies.
* The HTTP handler's observable behaviour is the response
  (status code plus body), the resulting store, and the trace of issued
  side effects (outbound calls and SQL statements), in order.
-/

namespace OrderService

/-- The `Order` struct of order-service/main.go. -/
structure Order where
  id : Int
  userID : Int
  product : String
  quantity : Int
  amount : Rat
  status : String
  createdAt : Int
deriving DecidableEq

/-- Outcome of one outbound HTTP call: `transportError e` is `err != nil`
with error text `e`; `response s` is a reply with status code `s`. -/
inductive HTTPResult where
  | transportError (e : String)
  | response (status : Nat)
deriving DecidableEq

/-- The environment of one `CreateOrder` invocation: what the User
Directory answers for each user id, what the Payment Processor answers for
each (order id, amount), whether the `INSERT` fails (and with which error
text), and the current time. -/
structure Env where
  userLookup : Int → HTTPResult
  payment : Int → Rat → HTTPResult
  insertError : Option String
  now : Int

/-- The Order Store: persisted rows and the id the next `INSERT ...
RETURNING id` will assign. -/
structure Store where
  rows : List Order
  nextId : Int
deriving DecidableEq

/-- `INSERT INTO orders ... RETURNING id`: the store assigns `nextId` to
the new row (the client-supplied id is not part of the insert column list)
and returns it. -/
def Store.insert (st : Store) (o : Order) : Store × Int :=
  ({ rows := st.rows ++ [{ o with id := st.nextId }], nextId := st.nextId + 1 },
   st.nextId)

/-- `UPDATE orders SET status = $1 WHERE id = $2`. -/
def Store.update (st : Store) (oid : Int) (s : String) : Store :=
  { st with rows := st.rows.map fun o => if o.id = oid then { o with status := s } else o }

/-- Status of the row with id `oid`, if present (first match). -/
def Store.statusOf (st : Store) (oid : Int) : Option String :=
  (st.rows.find? fun o => o.id == oid).map Order.status

/-- `validateUser` (main.go lines 47-60): `http.Get` on the user service;
a transport error yields "user service unavailable: ...", a non-200 status
yields "user not found", a 200 yields success (`none`). -/
def validateUser (env : Env) (userID : Int) : Option String :=
  match env.userLookup userID with
  | .transportError e => some ("user service unavailable: " ++ e)
  | .response s => if s ≠ 200 then some "user not found" else none

/-- `processPayment` (main.go lines 62-82): `http.Post` on the payment
service; a transport error yields "payment service unavailable: ...", a
non-200 status yields "payment failed", a 200 yields success (`none`). -/
def processPayment (env : Env) (orderID : Int) (amount : Rat) : Option String :=
  match env.payment orderID amount with
  | .transportError e => some ("payment service unavailable: " ++ e)
  | .response s => if s ≠ 200 then some "payment failed" else none

/-- Timeout configuration of the outbound calls: `validateUser` uses
`http.Get` and `processPayment` uses `http.Post`, both of which go through
`http.DefaultClient`, whose `Timeout` field is the zero value — no client
timeout is applied.  `none` means no timeout bound is configured. -/
def outboundCallTimeout : Option Nat := none

/-- Body of the HTTP response: `http.Error` writes the error text,
the success path JSON-encodes the order. -/
inductive Body where
  | errorText (msg : String)
  | orderBody (o : Order)
deriving DecidableEq

/-- An HTTP response: status code and body.  `http.Error(w, msg, code)`
is `⟨code, .errorText msg⟩`; the success path writes the encoded order
with the implicit 200. -/
structure HTTPResponse where
  status : Nat
  body : Body
deriving DecidableEq

/-- One issued side effect of `CreateOrder`, in program order: the
user-validation GET, the `INSERT` (with the values bound to its
placeholders), the payment POST, or an `UPDATE` of a row's status. -/
inductive Effect where
  | validateCall (userID : Int)
  | insertRow (userID : Int) (product : String) (quantity : Int)
      (amount : Rat) (status : String) (createdAt : Int)
  | payCall (orderID : Int) (amount : Rat)
  | updateRow (orderID : Int) (status : String)
deriving DecidableEq

def Effect.isValidateCall : Effect → Bool
  | .validateCall _ => true
  | _ => false

def Effect.isInsertRow : Effect → Bool
  | .insertRow _ _ _ _ _ _ => true
  | _ => false

def Effect.isPayCall : Effect → Bool
  | .payCall _ _ => true
  | _ => false

def Effect.isUpdateRow : Effect → Bool
  | .updateRow _ _ => true
  | _ => false

/-- The request body as seen by `json.NewDecoder(r.Body).Decode(&order)`:
either unparseable (with the decoder's error text) or a decoded `Order`
struct (absent JSON fields are Go zero values; `id`, `status` and
`created_at` are client-suppliable since they carry json tags). -/
inductive Request where
  | malformed (e : String)
  | parsed (o : Order)

/-- `CreateOrder` (main.go lines 84-125), as a function from environment,
store and request to (response, resulting store, trace of side effects):

1. decode the body; on error, 400 with the error text, nothing else;
2. `validateUser(order.UserID)`; on error, 400 with the error text;
3. overwrite `order.Status = "pending"`, `order.CreatedAt = time.Now()`
   and run the `INSERT ... RETURNING id`; on error, 500 with the error
   text; on success `order.ID` becomes the assigned id;
4. `processPayment(order.ID, order.Amount)`; on error, `UPDATE` the row to
   `payment_failed` and reply 500 with the error text;
5. on success, `UPDATE` the row to `completed` and reply 200 with the
   JSON-encoded order. -/
def CreateOrder (env : Env) (st : Store) (req : Request) :
    HTTPResponse × Store × List Effect :=
  match req with
  | .malformed e => (⟨400, .errorText e⟩, st, [])
  | .parsed order0 =>
    match validateUser env order0.userID with
    | some msg => (⟨400, .errorText msg⟩, st, [.validateCall order0.userID])
    | none =>
      let order1 : Order := { order0 with status := "pending", createdAt := env.now }
      let insEff : Effect := .insertRow order1.userID order1.product order1.quantity
        order1.amount order1.status order1.createdAt
      match env.insertError with
      | some e =>
        (⟨500, .errorText e⟩, st, [.validateCall order0.userID, insEff])
      | none =>
        let p := st.insert order1
        let order2 : Order := { order1 with id := p.2 }
        match processPayment env order2.id order2.amount with
        | some msg =>
          (⟨500, .errorText msg⟩, p.1.update order2.id "payment_failed",
           [.validateCall order0.userID, insEff, .payCall order2.id order2.amount,
            .updateRow order2.id "payment_failed"])
        | none =>
          let order3 : Order := { order2 with status := "completed" }
          (⟨200, .orderBody order3⟩, p.1.update order3.id order3.status,
           [.validateCall order0.userID, insEff, .payCall order2.id order2.amount,
            .updateRow order3.id "completed"])

/-- A well-formed store: every persisted row's id is below the id the next
insert will assign (maintained by `Store.insert`). -/
def Store.WF (st : Store) : Prop :=
  ∀ o ∈ st.rows, o.id < st.nextId

/-- A typical decoded request body: `{"user_id":1,"product":"book","quantity":1,"amount":10}`
(absent `id`, `status`, `created_at` decode to Go zero values). -/
def order1 : Order :=
  { id := 0, userID := 1, product := "book", quantity := 1, amount := 10,
    status := "", createdAt := 0 }

/-- The empty store whose next assigned id is 1. -/
def store0 : Store := { rows := [], nextId := 1 }

/-- Environment where the user exists, payment succeeds, the insert works. -/
def envOK : Env :=
  { userLookup := fun _ => .response 200, payment := fun _ _ => .response 200,
    insertError := none, now := 5 }

/-- Environment where the user exists and the insert works but the Payment
Processor is unreachable. -/
def envPayFail : Env :=
  { userLookup := fun _ => .response 200,
    payment := fun _ _ => .transportError "connection refused",
    insertError := none, now := 5 }

/-- Environment where the User Directory answers 404 (user absent). -/
def envUserMissing : Env :=
  { userLookup := fun _ => .response 404, payment := fun _ _ => .response 200,
    insertError := none, now := 5 }

/-- Environment where the user exists but the `INSERT` raises an error. -/
def envInsertFail : Env :=
  { userLookup := fun _ => .response 200, payment := fun _ _ => .response 200,
    insertError := some "pq: connection reset", now := 5 }

/-- Environment where the User Directory is unreachable. -/
def envUserDown : Env :=
  { userLookup := fun _ => .transportError "connection timed out",
    payment := fun _ _ => .response 200, insertError := none, now := 5 }

/-- A decoded request body violating every documented field constraint:
non-positive user id, empty product, negative amount. -/
def orderBad : Order :=
  { id := 0, userID := -3, product := "", quantity := 1, amount := -5,
    status := "", createdAt := 0 }

/-- The order `envOK` produces from `order1` on `store0`. -/
def order1Completed : Order :=
  { id := 1, userID := 1, product := "book", quantity := 1, amount := 10,
    status := "completed", createdAt := 5 }

/-- The status update issued by `CreateOrder` targets the id the insert of
the same call assigned; rows whose id is below that id are untouched. -/
lemma update_map_of_lt (n : Int) (s : String) :
    ∀ rows : List Order, (∀ o ∈ rows, o.id < n) →
      rows.map (fun o => if o.id = n then { o with status := s } else o) = rows
  | [], _ => rfl
  | a :: t, h => by
    have ha : a.id ≠ n := Int.ne_of_lt (h a (List.mem_cons_self a t))
    simp only [List.map_cons, if_neg ha]
    exact congrArg (List.cons a)
      (update_map_of_lt n s t fun o ho => h o (List.mem_cons_of_mem a ho))

/-- Looking up id `n` skips every row with a smaller id and finds an
appended row carrying id `n`. -/
lemma find_append_of_lt (n : Int) :
    ∀ rows : List Order, (∀ o ∈ rows, o.id < n) → ∀ r : Order, r.id = n →
      List.find? (fun o => o.id == n) (rows ++ [r]) = some r
  | [], _, r, hr => by simp [List.find?, hr]
  | a :: t, h, r, hr => by
    have ha : a.id ≠ n := Int.ne_of_lt (h a (List.mem_cons_self a t))
    rw [List.cons_append, List.find?_cons_of_neg _ (by simp [ha])]
    exact find_append_of_lt n t (fun o ho => h o (List.mem_cons_of_mem a ho)) r hr

/-- After inserting a row into a well-formed store and updating the
assigned id to status `s`, looking that id up yields status `s`. -/
lemma statusOf_insert_update (st : Store) (o : Order) (s : String) (hwf : st.WF) :
    ((st.insert o).1.update st.nextId s).statusOf st.nextId = some s := by
  unfold Store.insert Store.update Store.statusOf
  simp only [List.map_append, List.map_cons, List.map_nil, if_pos rfl]
  rw [update_map_of_lt st.nextId s st.rows hwf,
    find_append_of_lt st.nextId st.rows hwf _ rfl]
  rfl

/-- C3: whenever the user lookup fails — the User Directory is unreachable
(transport error) or answers with any non-200 status — `CreateOrder`
replies HTTP 400 with the validation error text, the Order Store is
returned unchanged, and the only side effect issued is the validation call
itself (in particular, no Order is persisted). -/
theorem createOrder_validation_failure (env : Env) (st : Store) (o : Order)
    (h : env.userLookup o.userID ≠ .response 200) :
    (CreateOrder env st (.parsed o)).1.status = 400 ∧
    (CreateOrder env st (.parsed o)).2.1 = st ∧
    (CreateOrder env st (.parsed o)).2.2 = [.validateCall o.userID] := by
  obtain ⟨msg, hv⟩ : ∃ msg, validateUser env o.userID = some msg := by
    unfold validateUser
    cases hc : env.userLookup o.userID with
    | transportError e => exact ⟨_, rfl⟩
    | response s =>
      have hs : s ≠ 200 := fun hs => h (hs ▸ hc)
      refine ⟨"user not found", ?_⟩
      simp [hs]
  simp [CreateOrder, hv]

/-- C3 witness: for the concrete environment in which the directory
answers 404 for user 1, the request is refused with 400 and the store is
unchanged. -/
theorem createOrder_validation_failure_witness :
    (CreateOrder envUserMissing store0 (.parsed order1)).1.status = 400 ∧
    (CreateOrder envUserMissing store0 (.parsed order1)).2.1 = store0 ∧
    (CreateOrder envUserMissing store0 (.parsed order1)).2.2 =
      [.validateCall order1.userID] :=
  createOrder_validation_failure envUserMissing store0 order1 (by decide)

/-- C4: when the user validates but the pending insert fails,
`CreateOrder` replies HTTP 500 with the insert's error text, the store is
unchanged, and no payment call appears in the trace — the Payment
Processor is never contacted. -/
theorem createOrder_insert_failure (env : Env) (st : Store) (o : Order) (e : String)
    (hv : validateUser env o.userID = none)
    (hi : env.insertError = some e) :
    (CreateOrder env st (.parsed o)).1 = ⟨500, .errorText e⟩ ∧
    (CreateOrder env st (.parsed o)).2.1 = st ∧
    ∀ eff ∈ (CreateOrder env st (.parsed o)).2.2, eff.isPayCall = false := by
  simp [CreateOrder, hv, hi, Effect.isPayCall]

/-- C4 witness: with user 1 present and the insert raising an error, the
response is the 500 insert error, the store is unchanged and no payment
call is issued. -/
theorem createOrder_insert_failure_witness :
    (CreateOrder envInsertFail store0 (.parsed order1)).1 =
      ⟨500, .errorText "pq: connection reset"⟩ ∧
    (CreateOrder envInsertFail store0 (.parsed order1)).2.1 = store0 ∧
    ∀ eff ∈ (CreateOrder envInsertFail store0 (.parsed order1)).2.2,
      eff.isPayCall = false :=
  createOrder_insert_failure envInsertFail store0 order1 "pq: connection reset"
    (by decide) rfl

/-- On the payment-failure path — user validated, insert succeeded,
`processPayment` returned an error — `CreateOrder` evaluates to the 500
error response, the store after insert-then-update-to-`payment_failed`,
and the four-effect trace. -/
lemma createOrder_payfail_eq (env : Env) (st : Store) (o : Order) (msg : String)
    (hv : validateUser env o.userID = none)
    (hi : env.insertError = none)
    (hp : processPayment env st.nextId o.amount = some msg) :
    CreateOrder env st (.parsed o) =
      (⟨500, .errorText msg⟩,
       (st.insert { o with status := "pending", createdAt := env.now }).1.update
         st.nextId "payment_failed",
       [.validateCall o.userID,
        .insertRow o.userID o.product o.quantity o.amount "pending" env.now,
        .payCall st.nextId o.amount,
        .updateRow st.nextId "payment_failed"]) := by
  simp [CreateOrder, Store.insert, hv, hi, hp]

/-- On the fully successful path `CreateOrder` evaluates to the 200
response carrying the completed order, the store after
insert-then-update-to-`completed`, and the four-effect trace. -/
lemma createOrder_paysuccess_eq (env : Env) (st : Store) (o : Order)
    (hv : validateUser env o.userID = none)
    (hi : env.insertError = none)
    (hp : processPayment env st.nextId o.amount = none) :
    CreateOrder env st (.parsed o) =
      (⟨200, .orderBody { o with id := st.nextId, status := "completed", createdAt := env.now }⟩,
       (st.insert { o with status := "pending", createdAt := env.now }).1.update
         st.nextId "completed",
       [.validateCall o.userID,
        .insertRow o.userID o.product o.quantity o.amount "pending" env.now,
        .payCall st.nextId o.amount,
        .updateRow st.nextId "completed"]) := by
  simp [CreateOrder, Store.insert, hv, hi, hp]

/-- C1 counterexample: user 1 exists, the pending insert succeeds and the
Payment Processor is unreachable; the stored status does become
`payment_failed`, but the caller receives HTTP 500 carrying the payment
error text — not an HTTP 200 carrying the order body as the claim
states. -/
theorem createOrder_payment_failure_cex :
    (CreateOrder envPayFail store0 (.parsed order1)).2.1.statusOf 1 =
      some "payment_failed" ∧
    (CreateOrder envPayFail store0 (.parsed order1)).1 =
      ⟨500, .errorText "payment service unavailable: connection refused"⟩ ∧
    (CreateOrder envPayFail store0 (.parsed order1)).1.status ≠ 200 := by
  decide

/-- C1 amended: whenever user validation and the pending insert succeed
but the payment call fails, the stored status transitions to
`payment_failed`, and the caller receives HTTP 500 carrying the payment
error text — the order body is not returned and the payment failure is
surfaced as an HTTP error. -/
theorem createOrder_payment_failure (env : Env) (st : Store) (o : Order) (msg : String)
    (hwf : st.WF)
    (hv : validateUser env o.userID = none)
    (hi : env.insertError = none)
    (hp : processPayment env st.nextId o.amount = some msg) :
    (CreateOrder env st (.parsed o)).1 = ⟨500, .errorText msg⟩ ∧
    (CreateOrder env st (.parsed o)).2.1.statusOf st.nextId = some "payment_failed" := by
  rw [createOrder_payfail_eq env st o msg hv hi hp]
  exact ⟨rfl, statusOf_insert_update st _ "payment_failed" hwf⟩

/-- C1 witness: the amended payment-failure behaviour at the concrete
unreachable-processor environment. -/
theorem createOrder_payment_failure_witness :
    (CreateOrder envPayFail store0 (.parsed order1)).1 =
      ⟨500, .errorText "payment service unavailable: connection refused"⟩ ∧
    (CreateOrder envPayFail store0 (.parsed order1)).2.1.statusOf 1 =
      some "payment_failed" :=
  createOrder_payment_failure envPayFail store0 order1
    "payment service unavailable: connection refused"
    (by simp [Store.WF, store0]) (by decide) rfl (by decide)

/-- Inserting into a well-formed store and then updating the assigned id
to status `s` appends one row with the assigned id and status `s`, leaving
every pre-existing row untouched. -/
lemma insert_update_store (st : Store) (o : Order) (s : String) (hwf : st.WF) :
    (st.insert o).1.update st.nextId s =
      { rows := st.rows ++ [{ o with id := st.nextId, status := s }],
        nextId := st.nextId + 1 } := by
  simp [Store.insert, Store.update, update_map_of_lt st.nextId s st.rows hwf]

/-- C5: when the user exists, the insert succeeds and the payment call
succeeds, the order is first persisted with status `pending` and the
current timestamp (the insert effect precedes the payment call in the
trace), then updated to `completed`, and the response is HTTP 200 carrying
the order with status `completed`. -/
theorem createOrder_success (env : Env) (st : Store) (o : Order)
    (hwf : st.WF)
    (hv : validateUser env o.userID = none)
    (hi : env.insertError = none)
    (hp : processPayment env st.nextId o.amount = none) :
    CreateOrder env st (.parsed o) =
      (⟨200, .orderBody { o with id := st.nextId, status := "completed", createdAt := env.now }⟩,
       { rows := st.rows ++ [{ o with id := st.nextId, status := "completed", createdAt := env.now }],
         nextId := st.nextId + 1 },
       [.validateCall o.userID,
        .insertRow o.userID o.product o.quantity o.amount "pending" env.now,
        .payCall st.nextId o.amount,
        .updateRow st.nextId "completed"]) := by
  rw [createOrder_paysuccess_eq env st o hv hi hp,
    insert_update_store st _ "completed" hwf]

/-- C5 witness: the success path at the concrete all-good environment. -/
theorem createOrder_success_witness :
    CreateOrder envOK store0 (.parsed order1) =
      (⟨200, .orderBody order1Completed⟩,
       { rows := [order1Completed], nextId := 2 },
       [.validateCall 1, .insertRow 1 "book" 1 10 "pending" 5,
        .payCall 1 10, .updateRow 1 "completed"]) :=
  createOrder_success envOK store0 order1 (by simp [Store.WF, store0])
    (by decide) rfl (by decide)

/-- C2 counterexample: a parseable payload with a non-positive user id, an
empty product and a negative amount is not rejected: with the directory
answering 200, `CreateOrder` replies 200, makes the outbound validation
call and writes a row to the store — no field-level validation exists. -/
theorem createOrder_no_field_validation_cex :
    (CreateOrder envOK store0 (.parsed orderBad)).1.status = 200 ∧
    (CreateOrder envOK store0 (.parsed orderBad)).2.2.countP Effect.isValidateCall = 1 ∧
    (CreateOrder envOK store0 (.parsed orderBad)).2.1.rows.length = 1 := by
  decide

/-- C2 amended: only an unparseable payload is rejected before any side
effect — it yields HTTP 400 with the decoder's error text, an unchanged
store and an empty effect trace; every payload that parses proceeds
straight to the user-validation call regardless of the sign of the user
id, the sign of the amount, or emptiness of the product. -/
theorem createOrder_input_validation :
    (∀ (env : Env) (st : Store) (e : String),
      CreateOrder env st (.malformed e) = (⟨400, .errorText e⟩, st, [])) ∧
    (∀ (env : Env) (st : Store) (o : Order),
      (CreateOrder env st (.parsed o)).2.2.head? = some (.validateCall o.userID)) := by
  refine ⟨fun env st e => rfl, fun env st o => ?_⟩
  cases hv : validateUser env o.userID with
  | some m => simp [CreateOrder, hv]
  | none =>
    cases hi : env.insertError with
    | some e => simp [CreateOrder, hv, hi]
    | none =>
      cases hp : processPayment env st.nextId o.amount with
      | some m =>
        rw [createOrder_payfail_eq env st o m hv hi hp]
        rfl
      | none =>
        rw [createOrder_paysuccess_eq env st o hv hi hp]
        rfl

/-- The client-suppliable `id`, `status` and `created_at` fields of the
decoded payload never influence `CreateOrder`: `status` and `created_at`
are overwritten before the insert and `id` is overwritten by the
store-assigned id before it is used. -/
lemma createOrder_client_fields (env : Env) (st : Store) (o : Order)
    (j : Int) (s : String) (c : Int) :
    CreateOrder env st (.parsed { o with id := j, status := s, createdAt := c }) =
      CreateOrder env st (.parsed o) := by
  cases hv : validateUser env o.userID with
  | some m => simp [CreateOrder, hv]
  | none =>
    cases hi : env.insertError with
    | some e => simp [CreateOrder, hv, hi]
    | none =>
      cases hp : processPayment env st.nextId o.amount with
      | some m =>
        rw [createOrder_payfail_eq env st { o with id := j, status := s, createdAt := c } m hv hi hp,
          createOrder_payfail_eq env st o m hv hi hp]
        simp [Store.insert]
      | none =>
        rw [createOrder_paysuccess_eq env st { o with id := j, status := s, createdAt := c } hv hi hp,
          createOrder_paysuccess_eq env st o hv hi hp]
        simp [Store.insert]

/-- C10: two requests whose decoded payloads differ only in the
client-supplied `id`, `status` or `created_at` field behave identically —
the response, the resulting store and the effect trace coincide, because
`CreateOrder` overwrites `status` with `pending`, `created_at` with the
current time and `id` with the store-assigned identifier. -/
theorem createOrder_client_fields_noninterference (env : Env) (st : Store)
    (o : Order) (j : Int) (s : String) (c : Int) :
    CreateOrder env st (.parsed { o with id := j, status := s, createdAt := c }) =
      CreateOrder env st (.parsed o) :=
  createOrder_client_fields env st o j s c

/-- Appending the freshly assigned row and bumping `nextId` preserves
store well-formedness. -/
lemma WF_after (st : Store) (o : Order) (s : String) (hwf : st.WF) :
    Store.WF { rows := st.rows ++ [{ o with id := st.nextId, status := s }],
               nextId := st.nextId + 1 } := by
  intro r hr
  show r.id < st.nextId + 1
  rcases List.mem_append.1 hr with h | h
  · have := hwf r h
    omega
  · simp only [List.mem_singleton] at h
    subst h
    show st.nextId < st.nextId + 1
    omega

/-- After a validated request whose insert succeeds, the resulting store
is the old one plus one row carrying the assigned id `st.nextId`, the
request's user/product/quantity/amount, the current timestamp, and a
terminal status decided by the payment outcome. -/
lemma createOrder_parsed_store (env : Env) (st : Store) (o : Order)
    (hwf : st.WF)
    (hv : validateUser env o.userID = none)
    (hi : env.insertError = none) :
    ∃ s1, (s1 = "completed" ∨ s1 = "payment_failed") ∧
      (CreateOrder env st (.parsed o)).2.1 =
        { rows := st.rows ++ [{ o with id := st.nextId, status := s1, createdAt := env.now }],
          nextId := st.nextId + 1 } := by
  cases hp : processPayment env st.nextId o.amount with
  | none =>
    refine ⟨"completed", .inl rfl, ?_⟩
    rw [createOrder_paysuccess_eq env st o hv hi hp,
      insert_update_store st _ "completed" hwf]
  | some m =>
    refine ⟨"payment_failed", .inr rfl, ?_⟩
    rw [createOrder_payfail_eq env st o m hv hi hp,
      insert_update_store st _ "payment_failed" hwf]

/-- C7: calling `CreateOrder` twice with the identical decoded payload
creates two distinct rows with two distinct store-assigned identifiers
(`st.nextId` and `st.nextId + 1`); the client-supplied `id` field has no
influence on the resulting store. -/
theorem createOrder_no_dedup (env : Env) (st : Store) (o : Order)
    (hwf : st.WF)
    (hv : validateUser env o.userID = none)
    (hi : env.insertError = none) :
    ∃ r1 r2 : Order,
      (CreateOrder env (CreateOrder env st (.parsed o)).2.1 (.parsed o)).2.1.rows =
        st.rows ++ [r1, r2] ∧
      r1.id = st.nextId ∧ r2.id = st.nextId + 1 ∧ r1.id ≠ r2.id ∧
      (∀ j : Int, (CreateOrder env st (.parsed { o with id := j })).2.1 =
        (CreateOrder env st (.parsed o)).2.1) := by
  have hj : ∀ j : Int, (CreateOrder env st (.parsed { o with id := j })).2.1 =
      (CreateOrder env st (.parsed o)).2.1 := fun j =>
    congrArg (fun r => r.2.1) (createOrder_client_fields env st o j o.status o.createdAt)
  obtain ⟨s1, hs1, h1⟩ := createOrder_parsed_store env st o hwf hv hi
  obtain ⟨s2, hs2, h2⟩ := createOrder_parsed_store env
    { rows := st.rows ++ [{ o with id := st.nextId, status := s1, createdAt := env.now }],
      nextId := st.nextId + 1 }
    o (WF_after st { o with createdAt := env.now } s1 hwf) hv hi
  refine ⟨{ o with id := st.nextId, status := s1, createdAt := env.now },
    { o with id := st.nextId + 1, status := s2, createdAt := env.now },
    ?_, rfl, rfl, ?_, hj⟩
  · rw [h1, h2]
    simp
  · show st.nextId ≠ st.nextId + 1
    omega

/-- C7 witness: two identical all-good requests on the empty store yield
two rows with the distinct ids 1 and 2. -/
theorem createOrder_no_dedup_witness :
    ∃ r1 r2 : Order,
      (CreateOrder envOK (CreateOrder envOK store0 (.parsed order1)).2.1
        (.parsed order1)).2.1.rows = store0.rows ++ [r1, r2] ∧
      r1.id = store0.nextId ∧ r2.id = store0.nextId + 1 ∧ r1.id ≠ r2.id ∧
      (∀ j : Int, (CreateOrder envOK store0 (.parsed { order1 with id := j })).2.1 =
        (CreateOrder envOK store0 (.parsed order1)).2.1) :=
  createOrder_no_dedup envOK store0 order1 (by simp [Store.WF, store0])
    (by decide) rfl

/-- C6: the order-status state machine.  Every insert writes status
`pending`; every update writes a terminal status (`completed` or
`payment_failed`) and targets exactly the id assigned by this call's
insert; at most one update is issued, and exactly one whenever a row was
created; pre-existing rows — in particular rows already in a terminal
status — are never touched.  Hence the only transitions are
pending → completed and pending → payment_failed, performed once, by the
same orchestration call that created the order. -/
theorem order_status_state_machine (env : Env) (st : Store) (req : Request)
    (hwf : st.WF) :
    (∀ u p q a s c, Effect.insertRow u p q a s c ∈ (CreateOrder env st req).2.2 →
      s = "pending") ∧
    (∀ i s, Effect.updateRow i s ∈ (CreateOrder env st req).2.2 →
      (s = "completed" ∨ s = "payment_failed") ∧ i = st.nextId) ∧
    (CreateOrder env st req).2.2.countP Effect.isUpdateRow ≤ 1 ∧
    ((CreateOrder env st req).2.1.rows.length = st.rows.length + 1 ↔
      (CreateOrder env st req).2.2.countP Effect.isUpdateRow = 1) ∧
    (∀ o ∈ st.rows, o ∈ (CreateOrder env st req).2.1.rows) := by
  cases req with
  | malformed e => simp [CreateOrder, Effect.isUpdateRow]
  | parsed o =>
    cases hv : validateUser env o.userID with
    | some m => simp [CreateOrder, hv, Effect.isUpdateRow]
    | none =>
      cases hi : env.insertError with
      | some e =>
        simp [CreateOrder, hv, hi, Effect.isUpdateRow]
        intros
        assumption
      | none =>
        obtain ⟨s1, hs1, h1⟩ := createOrder_parsed_store env st o hwf hv hi
        cases hp : processPayment env st.nextId o.amount with
        | some m =>
          rw [createOrder_payfail_eq env st o m hv hi hp] at h1 ⊢
          rw [h1]
          refine ⟨?_, ?_, by simp [Effect.isUpdateRow], ?_, ?_⟩
          · intro u p q a s c hmem
            simp at hmem
            tauto
          · intro i s hmem
            simp at hmem
            exact ⟨Or.inr hmem.2, hmem.1⟩
          · simp [Effect.isUpdateRow]
          · intro r hr
            exact List.mem_append.2 (Or.inl hr)
        | none =>
          rw [createOrder_paysuccess_eq env st o hv hi hp] at h1 ⊢
          rw [h1]
          refine ⟨?_, ?_, by simp [Effect.isUpdateRow], ?_, ?_⟩
          · intro u p q a s c hmem
            simp at hmem
            tauto
          · intro i s hmem
            simp at hmem
            exact ⟨Or.inl hmem.2, hmem.1⟩
          · simp [Effect.isUpdateRow]
          · intro r hr
            exact List.mem_append.2 (Or.inl hr)

/-- C6 witness: the state-machine properties at the concrete all-good
environment on the empty store. -/
theorem order_status_state_machine_witness :
    (∀ u p q a s c,
      Effect.insertRow u p q a s c ∈ (CreateOrder envOK store0 (.parsed order1)).2.2 →
      s = "pending") ∧
    (∀ i s, Effect.updateRow i s ∈ (CreateOrder envOK store0 (.parsed order1)).2.2 →
      (s = "completed" ∨ s = "payment_failed") ∧ i = store0.nextId) ∧
    (CreateOrder envOK store0 (.parsed order1)).2.2.countP Effect.isUpdateRow ≤ 1 ∧
    ((CreateOrder envOK store0 (.parsed order1)).2.1.rows.length =
        store0.rows.length + 1 ↔
      (CreateOrder envOK store0 (.parsed order1)).2.2.countP Effect.isUpdateRow = 1) ∧
    (∀ o ∈ store0.rows, o ∈ (CreateOrder envOK store0 (.parsed order1)).2.1.rows) :=
  order_status_state_machine envOK store0 (.parsed order1) (by simp [Store.WF, store0])

/-- C8 counterexample: an invocation whose payload does not parse performs
zero outbound validation calls and zero inserts, refuting "exactly one
insert and exactly one outbound user-validation call per invocation". -/
theorem createOrder_malformed_makes_no_calls :
    ((CreateOrder envOK store0 (.malformed "unexpected EOF")).2.2).countP
      Effect.isValidateCall = 0 ∧
    ((CreateOrder envOK store0 (.malformed "unexpected EOF")).2.2).countP
      Effect.isInsertRow = 0 := by
  decide

/-- C8 amended: every invocation performs at most one of each side effect
— validation call, insert, payment call, status update — with no retries,
and the trace is always a prefix of the strict order
Validate → Insert → Pay → Finalize; an invocation whose payload parses
performs exactly one validation call, and exactly one insert once
validation succeeds. -/
theorem createOrder_effect_budget (env : Env) (st : Store) (req : Request) :
    ((CreateOrder env st req).2.2.countP Effect.isValidateCall ≤ 1 ∧
     (CreateOrder env st req).2.2.countP Effect.isInsertRow ≤ 1 ∧
     (CreateOrder env st req).2.2.countP Effect.isPayCall ≤ 1 ∧
     (CreateOrder env st req).2.2.countP Effect.isUpdateRow ≤ 1) ∧
    ((CreateOrder env st req).2.2 = [] ∨
     (∃ u, (CreateOrder env st req).2.2 = [.validateCall u]) ∨
     (∃ u i, i.isInsertRow = true ∧
       (CreateOrder env st req).2.2 = [.validateCall u, i]) ∨
     (∃ u i oid a s, i.isInsertRow = true ∧
       (CreateOrder env st req).2.2 =
         [.validateCall u, i, .payCall oid a, .updateRow oid s])) ∧
    (∀ o, req = .parsed o →
      (CreateOrder env st req).2.2.countP Effect.isValidateCall = 1) ∧
    (∀ o, req = .parsed o → validateUser env o.userID = none →
      (CreateOrder env st req).2.2.countP Effect.isInsertRow = 1) := by
  cases req with
  | malformed e =>
    refine ⟨by simp [CreateOrder], Or.inl (by simp [CreateOrder]), ?_, ?_⟩ <;>
      intro o h <;> exact absurd h (by simp [CreateOrder])
  | parsed o =>
    cases hv : validateUser env o.userID with
    | some m =>
      refine ⟨?_, Or.inr (Or.inl ⟨o.userID, ?_⟩), ?_, ?_⟩
      · simp [CreateOrder, hv, Effect.isValidateCall, Effect.isInsertRow,
          Effect.isPayCall, Effect.isUpdateRow]
      · simp [CreateOrder, hv]
      · intro o' h
        cases h
        simp [CreateOrder, hv, Effect.isValidateCall]
      · intro o' h hv'
        cases h
        rw [hv] at hv'
        cases hv'
    | none =>
      cases hi : env.insertError with
      | some e =>
        refine ⟨?_, Or.inr (Or.inr (Or.inl ⟨o.userID,
          .insertRow o.userID o.product o.quantity o.amount "pending" env.now,
          rfl, ?_⟩)), ?_, ?_⟩
        · simp [CreateOrder, hv, hi, Effect.isValidateCall, Effect.isInsertRow,
            Effect.isPayCall, Effect.isUpdateRow]
        · simp [CreateOrder, hv, hi]
        · intro o' h
          cases h
          simp [CreateOrder, hv, hi, Effect.isValidateCall]
        · intro o' h _
          cases h
          simp [CreateOrder, hv, hi, Effect.isInsertRow]
      | none =>
        cases hp : processPayment env st.nextId o.amount with
        | some m =>
          rw [createOrder_payfail_eq env st o m hv hi hp]
          refine ⟨?_, Or.inr (Or.inr (Or.inr
            ⟨o.userID, .insertRow o.userID o.product o.quantity o.amount "pending" env.now,
             st.nextId, o.amount, "payment_failed", rfl, rfl⟩)), ?_, ?_⟩
          · simp [Effect.isValidateCall, Effect.isInsertRow, Effect.isPayCall,
              Effect.isUpdateRow]
          · intro o' h
            cases h
            simp [Effect.isValidateCall]
          · intro o' h _
            cases h
            simp [Effect.isInsertRow]
        | none =>
          rw [createOrder_paysuccess_eq env st o hv hi hp]
          refine ⟨?_, Or.inr (Or.inr (Or.inr
            ⟨o.userID, .insertRow o.userID o.product o.quantity o.amount "pending" env.now,
             st.nextId, o.amount, "completed", rfl, rfl⟩)), ?_, ?_⟩
          · simp [Effect.isValidateCall, Effect.isInsertRow, Effect.isPayCall,
              Effect.isUpdateRow]
          · intro o' h
            cases h
            simp [Effect.isValidateCall]
          · intro o' h _
            cases h
            simp [Effect.isInsertRow]

/-- C8 witness: on a parsed request in the all-good environment, exactly
one validation call and exactly one insert are performed. -/
theorem createOrder_effect_budget_witness :
    (CreateOrder envOK store0 (.parsed order1)).2.2.countP Effect.isValidateCall = 1 ∧
    (CreateOrder envOK store0 (.parsed order1)).2.2.countP Effect.isInsertRow = 1 :=
  ⟨(createOrder_effect_budget envOK store0 (.parsed order1)).2.2.1 order1 rfl,
   (createOrder_effect_budget envOK store0 (.parsed order1)).2.2.2 order1 rfl (by decide)⟩

/-- C9 counterexample: no outbound call is bounded by a configured
timeout — `validateUser` and `processPayment` use Go's default HTTP
client, whose timeout is the zero value, i.e. unbounded. -/
theorem outbound_timeout_cex : ¬ ∃ t : Nat, outboundCallTimeout = some t := by
  simp [outboundCallTimeout]

/-- C9 amended: no timeout is configured on the outbound calls (the
default client is used, `outboundCallTimeout = none`); a transport error —
which is how a lower-layer timeout surfaces from `http.Get`/`http.Post` —
is treated identically to an explicit failure response of that step: an
unreachable User Directory yields the 400 validation failure with no
persisted order, and an unreachable Payment Processor drives the created
order to `payment_failed` with the 500 response. -/
theorem outbound_failure_handling :
    outboundCallTimeout = none ∧
    (∀ (env : Env) (st : Store) (o : Order) (e : String),
      env.userLookup o.userID = .transportError e →
      (CreateOrder env st (.parsed o)).1.status = 400 ∧
      (CreateOrder env st (.parsed o)).2.1 = st) ∧
    (∀ (env : Env) (st : Store) (o : Order) (e : String), st.WF →
      validateUser env o.userID = none → env.insertError = none →
      env.payment st.nextId o.amount = .transportError e →
      (CreateOrder env st (.parsed o)).1.status = 500 ∧
      (CreateOrder env st (.parsed o)).2.1.statusOf st.nextId =
        some "payment_failed") := by
  refine ⟨rfl, ?_, ?_⟩
  · intro env st o e he
    have hv : validateUser env o.userID =
        some ("user service unavailable: " ++ e) := by
      unfold validateUser
      rw [he]
    simp [CreateOrder, hv]
  · intro env st o e hwf hv hi hpay
    have hp : processPayment env st.nextId o.amount =
        some ("payment service unavailable: " ++ e) := by
      unfold processPayment
      rw [hpay]
    rw [createOrder_payfail_eq env st o _ hv hi hp]
    exact ⟨rfl, statusOf_insert_update st _ "payment_failed" hwf⟩

/-- C9 witness: the transport-error handling at the two concrete
unreachable-collaborator environments. -/
theorem outbound_failure_handling_witness :
    ((CreateOrder envUserDown store0 (.parsed order1)).1.status = 400 ∧
     (CreateOrder envUserDown store0 (.parsed order1)).2.1 = store0) ∧
    ((CreateOrder envPayFail store0 (.parsed order1)).1.status = 500 ∧
     (CreateOrder envPayFail store0 (.parsed order1)).2.1.statusOf 1 =
       some "payment_failed") :=
  ⟨outbound_failure_handling.2.1 envUserDown store0 order1 "connection timed out" rfl,
   outbound_failure_handling.2.2 envPayFail store0 order1 "connection refused"
     (by simp [Store.WF, store0]) (by decide) rfl rfl⟩

end OrderService
